import Mathlib

/-!
Verification of the Component Architect generate-validate-repair pipeline
(`src/pipeline.py`, `src/session.py`).  Python strings are modelled as Lean
`String`s over their code points (`String.data : List Char`); the relevant
ASCII fragments of Python's case folding, whitespace stripping and the fixed
regular expressions of the source are translated into executable definitions.
-/

/-- ASCII lower-casing of a single character, as Python `str.lower` acts on
the ASCII range (the source only ever folds ASCII pattern text). -/
def lowChar : Char → Char
  | 'A' => 'a'
  | 'B' => 'b'
  | 'C' => 'c'
  | 'D' => 'd'
  | 'E' => 'e'
  | 'F' => 'f'
  | 'G' => 'g'
  | 'H' => 'h'
  | 'I' => 'i'
  | 'J' => 'j'
  | 'K' => 'k'
  | 'L' => 'l'
  | 'M' => 'm'
  | 'N' => 'n'
  | 'O' => 'o'
  | 'P' => 'p'
  | 'Q' => 'q'
  | 'R' => 'r'
  | 'S' => 's'
  | 'T' => 't'
  | 'U' => 'u'
  | 'V' => 'v'
  | 'W' => 'w'
  | 'X' => 'x'
  | 'Y' => 'y'
  | 'Z' => 'z'
  | c => c

/-- The `str.lower` on a whole string (ASCII model). -/
def lowerS (s : String) : String := String.mk (s.data.map lowChar)

/-- Python `str.strip` default whitespace characters. -/
def isPySpace (c : Char) : Bool :=
  c = ' ' || c = '\t' || c = '\n' || c = '\r' || c = '\x0b' || c = '\x0c'

/-- Python `str.strip()`: remove leading and trailing whitespace. -/
def pyStrip (s : String) : String :=
  String.mk (((s.data.dropWhile isPySpace).reverse.dropWhile isPySpace).reverse)

/-- Python `s.count(c)` for a single-character needle. -/
def countChar (s : String) (c : Char) : Nat := s.data.count c

/-- Python slicing `s[:n]` (by code points). -/
def takeStr (n : Nat) (s : String) : String := String.mk (s.data.take n)

/-- Python slicing `s[n:]` (by code points). -/
def dropStr (n : Nat) (s : String) : String := String.mk (s.data.drop n)

/-- Boolean list-prefix test (executable, used by the pattern matchers). -/
def isPfx : List Char → List Char → Bool
  | [], _ => true
  | _ :: _, [] => false
  | a :: as, b :: bs => a = b && isPfx as bs

/-- Python `needle in hay` substring test. -/
def isSubList (needle : List Char) : List Char → Bool
  | [] => isPfx needle []
  | c :: rest => isPfx needle (c :: rest) || isSubList needle rest

/-- Python `needle in hay` on strings. -/
def containsStr (hay needle : String) : Bool := isSubList needle.data hay.data

/-- Index of the leftmost occurrence of the literal `pat` in a list, if any. -/
def findPat (pat : List Char) : List Char → Option Nat
  | [] => if isPfx pat [] then some 0 else none
  | c :: rest => if isPfx pat (c :: rest) then some 0 else (findPat pat rest).map (· + 1)

/-- Index of the leftmost position whose suffix satisfies `p`, if any. -/
def findPred (p : List Char → Bool) : List Char → Option Nat
  | [] => if p [] then some 0 else none
  | c :: rest => if p (c :: rest) then some 0 else (findPred p rest).map (· + 1)

/-- One pass of `re.sub(A + '.*?' + B, '', s, flags=IGNORECASE|DOTALL)` for
literal fragments `A`, `B` (given lower-cased): repeatedly remove the
leftmost-shortest span from an occurrence of `A` to the next occurrence of
`B`, continuing the scan after the removed span, exactly as `re.sub` scans
the subject once left to right.  Structured with a fuel argument (the
subject length bounds the number of removals). -/
def subPairGo (a b : List Char) : Nat → List Char → List Char
  | 0, s => s
  | fuel + 1, s =>
    let low := s.map lowChar
    match findPat a low with
    | none => s
    | some i =>
      match findPat b (low.drop (i + a.length)) with
      | none => s
      | some j =>
        s.take i ++ subPairGo a b fuel (s.drop (i + a.length + j + b.length))

/-- The `re.sub` for the delimiter-pair injection patterns. -/
def subPair (a b : List Char) (s : List Char) : List Char := subPairGo a b s.length s

/-- The `re.sub(P, '', s, flags=IGNORECASE|DOTALL)` for a pattern `P` ending in
`.*`: such a pattern removes everything from the leftmost position matched
by `p` (on the lower-cased text) to the end of the string. -/
def subSuffix (p : List Char → Bool) (s : List Char) : List Char :=
  match findPred p (s.map lowChar) with
  | none => s
  | some i => s.take i

/-- Matcher for `###\s*(System|Instruction|Override).*` at a position of the
lower-cased text: `###`, then greedy whitespace, then one of the keywords
(the keywords start with non-whitespace, so only the maximal whitespace run
can precede them). -/
def hashOverrideAt (l : List Char) : Bool :=
  isPfx "###".data l &&
    (let rest := (l.drop 3).dropWhile isPySpace
     isPfx "system".data rest || isPfx "instruction".data rest ||
       isPfx "override".data rest)

/-- Matcher for `Ignore (previous|above|all) instructions?.*` at a position
of the lower-cased text (the optional `s` and trailing `.*` always match). -/
def ignoreInstrAt (l : List Char) : Bool :=
  isPfx "ignore previous instruction".data l ||
    isPfx "ignore above instruction".data l ||
    isPfx "ignore all instruction".data l

/-- Matcher for `You are now.*`. -/
def youAreNowAt (l : List Char) : Bool := isPfx "you are now".data l

/-- Matcher for `New instructions?:.*` (with or without the optional `s`). -/
def newInstrAt (l : List Char) : Bool :=
  isPfx "new instructions:".data l || isPfx "new instruction:".data l

/-- Matcher for `SYSTEM:.*`. -/
def systemColonAt (l : List Char) : Bool := isPfx "system:".data l

/-- The `sanitize_user_input` from `src/pipeline.py` (lines 40-54): apply the
eight injection-pattern substitutions in order, then strip surrounding
whitespace and truncate to 1000 characters. -/
def sanitize_user_input (text : String) : String :=
  let s1 := subPair "<<<".data ">>>".data text.data
  let s2 := subPair "[inst]".data "[/inst]".data s1
  let s3 := subPair "<s>".data "</s>".data s2
  let s4 := subSuffix hashOverrideAt s3
  let s5 := subSuffix ignoreInstrAt s4
  let s6 := subSuffix youAreNowAt s5
  let s7 := subSuffix newInstrAt s6
  let s8 := subSuffix systemColonAt s7
  takeStr 1000 (pyStrip (String.mk s8))

/-- Python `s.split('\n')` on the underlying character list. -/
def splitNl : List Char → List (List Char)
  | [] => [[]]
  | '\n' :: rest => [] :: splitNl rest
  | c :: rest =>
    match splitNl rest with
    | x :: xs => (c :: x) :: xs
    | [] => [[c]]

/-- First line of the stripped artifact, lower-cased, as computed by
`_check_syntax` (`code.strip().split('\n')[0].lower()`). -/
def firstLineLower (code : String) : String :=
  lowerS (String.mk ((splitNl (pyStrip code).data).headD []))

/-- The conversational filler phrases of `_check_syntax`. -/
def fillerPhrases : List String :=
  ["here is", "here\x27s", "sure", "of course", "i\x27ll", "this is"]

/-- The `_check_syntax` from `src/pipeline.py` (lines 109-133): balance checks on
braces, parentheses and brackets, backtick parity, markdown-fence detection
and the conversational-filler check on the first stripped line. -/
def syntaxErrors (code : String) : List String :=
  let opens := countChar code '\x7b'
  let closes := countChar code '\x7d'
  (if opens ≠ closes then
    ["Syntax: Unbalanced braces — " ++ toString opens ++ " \x27\x7b\x27 vs " ++
      toString closes ++ " \x27\x7d\x27"] else []) ++
  (if countChar code '(' ≠ countChar code ')' then
    ["Syntax: Unbalanced parentheses"] else []) ++
  (if countChar code '[' ≠ countChar code ']' then
    ["Syntax: Unbalanced square brackets"] else []) ++
  (if countChar code '\x60' % 2 ≠ 0 then
    ["Syntax: Odd number of backticks — unclosed template literal"] else []) ++
  (if containsStr code "```" then
    ["Output: Code contains markdown fences (```) — must be raw code only"] else []) ++
  (if fillerPhrases.any (fun s => isPfx s.data (firstLineLower code).data) then
    ["Output: Response starts with conversational text, not code"] else [])

/-- The design-token store: the `tokens` object with the two categories the
validator reads (`colors`, `effects`) plus the sibling `tailwind_classes`
mapping, each an association list in document order. -/
structure DesignSystem where
  colors : List (String × String)
  effects : List (String × String)
  tailwind_classes : List (String × String)

/-- Hex digit characters for JSON escapes. -/
def hexChar (n : Nat) : Char := "0123456789abcdef".data.getD n '0'

/-- JSON escaping of one character (`json.dumps`, ASCII content). -/
def jsonEscapeChar (c : Char) : String :=
  if c = '"' then "\\\"" else if c = '\\' then "\\\\"
  else if c = '\n' then "\\n" else if c = '\t' then "\\t"
  else if c = '\r' then "\\r" else if c = '\x08' then "\\b"
  else if c = '\x0c' then "\\f"
  else if c.toNat < 32 then
    "\\u00" ++ String.mk [hexChar (c.toNat / 16), hexChar (c.toNat % 16)]
  else String.mk [c]

/-- A JSON string literal. -/
def jsonStrLit (s : String) : String :=
  "\"" ++ String.join (s.data.map jsonEscapeChar) ++ "\""

/-- The `json.dumps` of a flat string-to-string object with the default
separators (`, ` and `: `). -/
def jsonObjC (pairs : List (String × String)) : String :=
  "\x7b" ++
    String.intercalate ", "
      (pairs.map (fun kv => jsonStrLit kv.1 ++ ": " ++ jsonStrLit kv.2)) ++
  "\x7d"

/-- The `json.dumps(design_system)` as used by `_check_design_tokens` (line 158):
the whole store — tokens and `tailwind_classes` — serialized compactly. -/
def dumpsDesignSystem (ds : DesignSystem) : String :=
  "\x7b\"tokens\": \x7b\"colors\": " ++ jsonObjC ds.colors ++
    ", \"effects\": " ++ jsonObjC ds.effects ++
    "\x7d, \"tailwind_classes\": " ++ jsonObjC ds.tailwind_classes ++ "\x7d"

/-- Hex digit for the `#([0-9a-fA-F]{3,8})\b` scanner. -/
def isHexDig (c : Char) : Bool :=
  (c ≥ '0' && c ≤ '9') || (c ≥ 'a' && c ≤ 'f') || (c ≥ 'A' && c ≤ 'F')

/-- Word character for the regex `\b` boundary (ASCII model of `\w`). -/
def isWordChar (c : Char) : Bool :=
  (c ≥ '0' && c ≤ '9') || (c ≥ 'a' && c ≤ 'z') || (c ≥ 'A' && c ≤ 'Z') || c = '_'

/-- The `finditer` of `#([0-9a-fA-F]{3,8})\b`: at a `#`, the greedy quantifier
takes the maximal run of hex digits; backtracking to a shorter run always
leaves a hex digit (a word character) adjacent, so a match exists exactly
when the maximal run has length 3..8 and the character after it, if any, is
not a word character.  Scanning resumes after each match.  Fuel-structured;
the subject length bounds the number of steps. -/
def hexScanGo : Nat → List Char → List (List Char)
  | 0, _ => []
  | _ + 1, [] => []
  | fuel + 1, c :: rest =>
    if c = '#' then
      let digs := rest.takeWhile isHexDig
      let tail := rest.drop digs.length
      if 3 ≤ digs.length && digs.length ≤ 8 &&
          (match tail with | [] => true | d :: _ => !isWordChar d) then
        ('#' :: digs) :: hexScanGo fuel tail
      else hexScanGo fuel rest
    else hexScanGo fuel rest

/-- All matches of the hex-color pattern in an artifact, in order. -/
def hexScan (code : String) : List (List Char) := hexScanGo code.data.length code.data

/-- One attempted match of `rgb[a]?\([^)]+\)` at the head of the list:
`rgb`, an optional `a` (greedy, but only viable when a `(` follows), `(`,
a non-empty run of non-`)` characters, `)`.  Returns the match and the
remainder of the subject. -/
def parseRgb (l : List Char) : Option (List Char × List Char) :=
  match l with
  | 'r' :: 'g' :: 'b' :: 'a' :: '(' :: body =>
    let inner := body.takeWhile (fun c => c ≠ ')')
    match body.drop inner.length with
    | ')' :: rem =>
      if inner.isEmpty then none
      else some ('r' :: 'g' :: 'b' :: 'a' :: '(' :: (inner ++ [')']), rem)
    | _ => none
  | 'r' :: 'g' :: 'b' :: '(' :: body =>
    let inner := body.takeWhile (fun c => c ≠ ')')
    match body.drop inner.length with
    | ')' :: rem =>
      if inner.isEmpty then none
      else some ('r' :: 'g' :: 'b' :: '(' :: (inner ++ [')']), rem)
    | _ => none
  | _ => none

/-- The `finditer` of `rgb[a]?\([^)]+\)` (case-sensitive), fuel-structured. -/
def rgbScanGo : Nat → List Char → List (List Char)
  | 0, _ => []
  | _ + 1, [] => []
  | fuel + 1, c :: rest =>
    match parseRgb (c :: rest) with
    | some (m, rem) => m :: rgbScanGo fuel rem
    | none => rgbScanGo fuel rest

/-- All matches of the rgb/rgba pattern in an artifact, in order. -/
def rgbScan (code : String) : List (List Char) := rgbScanGo code.data.length code.data

/-- The error message for a hard-coded hex color (`full` already
lower-cased, as in the source). -/
def hexTokenErr (full : String) : String :=
  "Design Token: Hard-coded color \x27" ++ full ++
    "\x27 not in design system. Use a design token."

/-- The error message for a non-system rgb/rgba value. -/
def rgbTokenErr (v : String) : String :=
  "Design Token: Non-system color value \x27" ++ v ++
    "\x27 detected. Use design tokens."

/-- The `allowed_colors` set of `_check_design_tokens` (lines 140-144):
every color value lower-cased, plus, for values starting with `#`, the
value without its leading `#`, lower-cased. -/
def allowedColors (ds : DesignSystem) : List String :=
  ds.colors.flatMap (fun kv =>
    lowerS kv.2 ::
      (if isPfx "#".data kv.2.data then [lowerS (dropStr 1 kv.2)] else []))

/-- The universally-exempt pure black/white literals (line 146). -/
def universalColors : List String :=
  ["#fff", "#ffffff", "#000", "#000000", "fff", "ffffff", "000", "000000"]

/-- The body of the first loop of `_check_design_tokens` (lines 151-156)
for one hex match: `None` when the full or short form is in the allowed set
or in the universal set, otherwise the error for this match. -/
def hexFlagF (ds : DesignSystem) (m : List Char) : Option String :=
  let full := lowerS (String.mk m)
  let short := lowerS (String.mk (m.drop 1))
  if (allowedColors ds).contains full || (allowedColors ds).contains short then none
  else if universalColors.contains full || universalColors.contains short then none
  else some (hexTokenErr full)

/-- The hex-literal errors appended by the first loop of
`_check_design_tokens`, one per flagged match, in scan order. -/
def hexTokenErrList (code : String) (ds : DesignSystem) : List String :=
  (hexScan code).filterMap (hexFlagF ds)

/-- The body of the second loop of `_check_design_tokens` (lines 158-163)
for one rgb/rgba match: `None` when the literal occurs verbatim in the
serialized store or inside an effects value, otherwise the error. -/
def rgbFlagF (ds : DesignSystem) (m : List Char) : Option String :=
  let val := String.mk m
  if containsStr (dumpsDesignSystem ds) val ||
      (ds.effects.map (fun kv => kv.2)).any (fun ev => containsStr ev val) then none
  else some (rgbTokenErr (takeStr 50 val))

/-- The rgb/rgba errors appended by the second loop of
`_check_design_tokens`, one per flagged match, in scan order. -/
def rgbTokenErrList (code : String) (ds : DesignSystem) : List String :=
  (rgbScan code).filterMap (rgbFlagF ds)

/-- The `_check_design_tokens` from `src/pipeline.py` (lines 136-165): the hex
errors followed by the rgb errors, in scan order. -/
def designTokenErrors (code : String) (ds : DesignSystem) : List String :=
  hexTokenErrList code ds ++ rgbTokenErrList code ds

/-- The `_check_angular_structure` from `src/pipeline.py` (lines 168-178). -/
def angularStructureErrors (code : String) : List String :=
  (if !containsStr code "@Component" then
    ["Angular: Missing @Component decorator"] else []) ++
  (if !containsStr code "template" && !containsStr code "templateUrl" then
    ["Angular: Component missing template or templateUrl"] else []) ++
  (if !containsStr code "export class" then
    ["Angular: Missing exported class declaration"] else []) ++
  (if !containsStr code "import" then
    ["Angular: Missing import statements"] else [])

/-- The `validate_component` from `src/pipeline.py` (lines 181-186): the three
checks concatenated in order; valid iff the error list is empty. -/
def validate_component (code : String) (ds : DesignSystem) : Bool × List String :=
  let errors := syntaxErrors code ++ designTokenErrors code ds ++ angularStructureErrors code
  (errors.isEmpty, errors)

/-- A sample store used by the witness theorems (mirrors the shape of the
real design-system document). -/
def dsA : DesignSystem :=
  ⟨[("primary", "#6366f1"), ("c1", "ABC123")],
   [("glass", "rgba(255, 255, 255, 0.08)")],
   [("x", "rgb(9, 9, 9)")]⟩

/-- The `MAX_RETRIES` from `src/pipeline.py` (line 12). -/
def MAX_RETRIES : Nat := 3

/-- One attempt record appended to `result["attempts"]`. -/
structure AttemptRec where
  attempt : Nat
  code : String
  valid : Bool
  errors : List String
deriving DecidableEq

/-- The result dictionary of one `generate_component` run. -/
structure GenResult where
  userPrompt : String
  attempts : List AttemptRec
  final_code : Option String
  valid : Bool
  errors : List String
deriving DecidableEq

/-- The retry loop of `generate_component` (`src/pipeline.py` lines 208-252).
The completion provider is modelled as a function from the attempt index to
the completion text (per attempt, the built prompt is fed to an opaque
provider; `call_llm` strips the assembled stream, hence `pyStrip`).
Arguments: current attempt index, remaining attempt budget; returns the
attempt trail, the last generated code, the last error list and validity. -/
def genLoop (provider : Nat → String) (ds : DesignSystem) :
    Nat → Nat → List AttemptRec × String × List String × Bool
  | _, 0 => ([], "", [], false)
  | k, r + 1 =>
    let code := pyStrip (provider k)
    let vres := validate_component code ds
    let ar : AttemptRec := ⟨k, code, vres.1, vres.2⟩
    if vres.1 then ([ar], code, [], true)
    else if r = 0 then ([ar], code, vres.2, false)
    else
      match genLoop provider ds (k + 1) r with
      | (as, fc, fe, v) => (ar :: as, fc, fe, v)

/-- The `generate_component` from `src/pipeline.py` (lines 189-261), output-path
and console side effects omitted: run up to `MAX_RETRIES` attempts, stop at
the first valid artifact; on success the error list is cleared, on
exhaustion the final code and errors are the last attempt's. -/
def generate_component (provider : Nat → String) (user_prompt : String)
    (ds : DesignSystem) : GenResult :=
  let r := genLoop provider ds 1 MAX_RETRIES
  ⟨user_prompt, r.1, some r.2.1, r.2.2.2, r.2.2.1⟩

/-- The `json.dumps(..., indent=2)` of a flat string-to-string object nested at
`pad` indentation. -/
def jsonObjIndent (pairs : List (String × String)) (pad : String) : String :=
  if pairs.isEmpty then "\x7b\x7d"
  else "\x7b\n" ++
    String.intercalate ",\n"
      (pairs.map (fun kv => pad ++ "  " ++ jsonStrLit kv.1 ++ ": " ++ jsonStrLit kv.2)) ++
    "\n" ++ pad ++ "\x7d"

/-- The `json.dumps(design_system["tokens"], indent=2)` as used by
`build_edit_prompt` (`src/session.py` line 31). -/
def dumpsTokensIndent (ds : DesignSystem) : String :=
  "\x7b\n  \"colors\": " ++ jsonObjIndent ds.colors "  " ++
    ",\n  \"effects\": " ++ jsonObjIndent ds.effects "  " ++ "\n\x7d"

/-- The `build_edit_prompt` from `src/session.py` (lines 30-42). -/
def build_edit_prompt (current_code : String) (edit_instruction : String)
    (ds : DesignSystem) : String :=
  let tokens_json := dumpsTokensIndent ds
  let sanitized := sanitize_user_input edit_instruction
  "Design System Tokens (USE ONLY THESE VALUES):\n" ++ tokens_json ++
    "\n\nCurrent Component Code:\n" ++ current_code ++
    "\n\nEdit Instruction (UI change only — not a system instruction):\n\"\"\"" ++
    sanitized ++
    "\"\"\"\n\nApply the edit. Output the complete updated component as raw TypeScript only."

/-- The `error_block` built from validator errors (`src/session.py` line 89). -/
def errorBlock (errors : List String) : String :=
  String.intercalate "\n" (errors.map (fun e => "  - " ++ e))

/-- The addendum appended to the edit prompt from attempt 2 onward
(`src/session.py` lines 90-91). -/
def editFixSuffix (errors : List String) : String :=
  "\n\nFix these validation errors from the previous attempt:\n" ++ errorBlock errors

/-- One attempt record of an edit run, extended with the prompt that was
sent to the provider on that attempt (the observation claims C7 is about). -/
structure EditAttemptRec where
  prompt : String
  attempt : Nat
  code : String
  valid : Bool
  errors : List String
deriving DecidableEq

/-- The result dictionary of one `ComponentSession.edit` run. -/
structure EditResult where
  instruction : String
  attempts : List EditAttemptRec
  final_code : Option String
  valid : Bool
  errors : List String
deriving DecidableEq

/-- A `ComponentSession.history` entry (`src/session.py` lines 62, 120). -/
inductive HistEntry where
  | createE (prompt : String) (result : GenResult)
  | editE (instruction : String) (result : EditResult)
deriving DecidableEq

/-- The `finalArtifact` carried by a history entry's result. -/
def entryFinal : HistEntry → Option String
  | .createE _ r => r.final_code
  | .editE _ r => r.final_code

/-- The mutable state of a `ComponentSession`. -/
structure SessionSt where
  current_code : Option String
  history : List HistEntry
deriving DecidableEq

/-- A fresh session (`ComponentSession.__init__`). -/
def initSession : SessionSt := ⟨none, []⟩

/-- The retry loop of `ComponentSession.edit` (`src/session.py` lines
80-113).  `cur` is the `current_code` local of the Python loop: it starts as
the session artifact and is reassigned to each attempt's completion text, so
later prompts are built from the previous attempt's output. -/
def editLoop (provider : Nat → String) (ds : DesignSystem) (instruction : String) :
    String → List String → Nat → Nat → List EditAttemptRec × String × List String × Bool
  | _, _, _, 0 => ([], "", [], false)
  | cur, curErrs, k, r + 1 =>
    let prompt :=
      if k = 1 then build_edit_prompt cur instruction ds
      else build_edit_prompt cur instruction ds ++ editFixSuffix curErrs
    let code := pyStrip (provider k)
    let vres := validate_component code ds
    let ar : EditAttemptRec := ⟨prompt, k, code, vres.1, vres.2⟩
    if vres.1 then ([ar], code, [], true)
    else if r = 0 then ([ar], code, vres.2, false)
    else
      match editLoop provider ds instruction code vres.2 (k + 1) r with
      | (as, fc, fe, v) => (ar :: as, fc, fe, v)

deriving instance DecidableEq for Except

/-- Outcome of a `ComponentSession.edit` call: the returned result or the
raised error, the session state afterwards, and how many completion-provider
calls were performed. -/
structure EditStep where
  result : Except String EditResult
  state' : SessionSt
  calls : Nat
deriving DecidableEq

/-- The `ComponentSession.edit` from `src/session.py` (lines 65-127), output
path and console side effects omitted.  The guard `if not self.current_code`
raises for a missing artifact and for an empty-string artifact alike. -/
def sessionEdit (st : SessionSt) (provider : Nat → String) (instruction : String)
    (ds : DesignSystem) : EditStep :=
  match st.current_code with
  | none => ⟨.error "No component exists yet. Call create() first.", st, 0⟩
  | some cur =>
    if cur = "" then ⟨.error "No component exists yet. Call create() first.", st, 0⟩
    else
      let r := editLoop provider ds instruction cur [] 1 MAX_RETRIES
      let result : EditResult := ⟨instruction, r.1, some r.2.1, r.2.2.2, r.2.2.1⟩
      ⟨.ok result, ⟨some r.2.1, st.history ++ [HistEntry.editE instruction result]⟩,
        r.1.length⟩

/-- The `ComponentSession.create` from `src/session.py` (lines 53-63): run the
generation pipeline, overwrite `current_code` with the run's final artifact
and append the run to history. -/
def sessionCreate (st : SessionSt) (provider : Nat → String) (prompt : String)
    (ds : DesignSystem) : GenResult × SessionSt :=
  let result := generate_component provider prompt ds
  (result, ⟨result.final_code, st.history ++ [HistEntry.createE prompt result]⟩)

/-- A session operation together with the provider behaviour for its run. -/
inductive SessionOp where
  | createOp (prompt : String) (provider : Nat → String)
  | editOp (instruction : String) (provider : Nat → String)

/-- Apply one operation to the session state (an `edit` that raises leaves
the state unchanged). -/
def applyOp (ds : DesignSystem) (st : SessionSt) : SessionOp → SessionSt
  | .createOp pr p => (sessionCreate st p pr ds).2
  | .editOp i p => (sessionEdit st p i ds).state'

/-- Placeholder attempt record for positional access. -/
def dummyAttempt : EditAttemptRec := ⟨"", 0, "", false, []⟩

/-- The attempt trail returned by an edit call (empty when the call raised). -/
def editResultAttempts (e : EditStep) : List EditAttemptRec :=
  match e.result with
  | .ok r => r.attempts
  | .error _ => []

/-- The attempt index at which the retry engine stops: the first valid
attempt, or `MAX_RETRIES` when no attempt validates. -/
def stopIdx (provider : Nat → String) (ds : DesignSystem) : Nat :=
  if (validate_component (pyStrip (provider 1)) ds).1 then 1
  else if (validate_component (pyStrip (provider 2)) ds).1 then 2
  else 3

/-- Does the artifact contain an instance of the injection pattern
`A.*?B` (an occurrence of `A` followed by an occurrence of `B`)? -/
def pairMatchExists (a b : List Char) (s : List Char) : Bool :=
  match findPat a (s.map lowChar) with
  | none => false
  | some i => (findPat b ((s.map lowChar).drop (i + a.length))).isSome

/-- Case-insensitive comparison modulo an optional leading `#`: drop the
hash of the lower-cased string if present. -/
def dropHash (s : String) : String :=
  if isPfx "#".data s.data then dropStr 1 s else s

/-- A literal "exactly matches some value of the store's colors mapping,
compared case-insensitively, with or without the leading `#`": after
lower-casing, the literal and the value agree with the leading `#` of
either side optionally removed. -/
def hexValMatchesStore (ds : DesignSystem) (lit : String) : Prop :=
  ∃ kv ∈ ds.colors,
    lowerS lit = lowerS kv.2 ∨
    lowerS lit = dropHash (lowerS kv.2) ∨
    dropHash (lowerS lit) = lowerS kv.2 ∨
    dropHash (lowerS lit) = dropHash (lowerS kv.2)

/-- The per-run session invariant: the current artifact is the final
artifact of the most recent history entry (trivial for an empty history). -/
def sessionInv (st : SessionSt) : Prop :=
  match st.history.getLast? with
  | none => True
  | some e => st.current_code = entryFinal e

/-- C3. Syntax check completeness: an artifact with balanced braces,
parentheses and brackets, an even number of backticks, no triple-backtick
marker and a non-filler first stripped line produces no syntax errors. -/
theorem syntax_check_completeness (code : String)
    (hbr : countChar code '\x7b' = countChar code '\x7d')
    (hpa : countChar code '(' = countChar code ')')
    (hsq : countChar code '[' = countChar code ']')
    (hbt : countChar code '\x60' % 2 = 0)
    (hfence : containsStr code "```" = false)
    (hfill : fillerPhrases.any (fun s => isPfx s.data (firstLineLower code).data) = false) :
    syntaxErrors code = [] := by
  simp [syntaxErrors, hbr, hpa, hsq, hbt, hfence, hfill]

theorem syntax_check_completeness_witness :
    countChar "abc" '\x7b' = countChar "abc" '\x7d' ∧ syntaxErrors "abc" = [] :=
  ⟨by decide,
   syntax_check_completeness "abc" (by decide) (by decide) (by decide) (by decide)
     (by decide) (by decide)⟩

/-- C8. Edit precondition: calling `edit` on a session without a current
artifact raises the input error, performs zero completion calls and leaves
the session state unchanged. -/
theorem edit_before_create_raises (st : SessionSt) (provider : Nat → String)
    (instruction : String) (ds : DesignSystem) (h : st.current_code = none) :
    sessionEdit st provider instruction ds =
      ⟨.error "No component exists yet. Call create() first.", st, 0⟩ := by
  simp [sessionEdit, h]

theorem edit_before_create_raises_witness :
    sessionEdit initSession (fun _ => "x") "i" dsA =
      ⟨.error "No component exists yet. Call create() first.", initSession, 0⟩ :=
  edit_before_create_raises initSession (fun _ => "x") "i" dsA rfl

/-- C10. The edit guard tests truthiness, not presence: when the current
artifact is the empty string (as after a completed create whose final
artifact was empty), `edit` raises the same error, performs no completion
calls and leaves the state unchanged. -/
theorem edit_guard_rejects_empty (st : SessionSt) (provider : Nat → String)
    (instruction : String) (ds : DesignSystem) (h : st.current_code = some "") :
    sessionEdit st provider instruction ds =
      ⟨.error "No component exists yet. Call create() first.", st, 0⟩ := by
  simp [sessionEdit, h]

theorem edit_guard_rejects_empty_witness :
    ((sessionCreate initSession (fun _ => "") "p" dsA).2.current_code = some "") ∧
      sessionEdit (sessionCreate initSession (fun _ => "") "p" dsA).2
          (fun _ => "y") "i" dsA =
        ⟨.error "No component exists yet. Call create() first.",
          (sessionCreate initSession (fun _ => "") "p" dsA).2, 0⟩ :=
  ⟨by decide,
   edit_guard_rejects_empty (sessionCreate initSession (fun _ => "") "p" dsA).2
     (fun _ => "y") "i" dsA (by decide)⟩

/-- C9. Session state invariant: a completed create or edit sets
`current_code` to the run's final artifact and appends exactly one history
entry after the previously recorded ones; consequently, along any sequence
of operations the current artifact equals the final artifact of the most
recent history entry. -/
theorem session_current_tracks_history (ds : DesignSystem) :
    (∀ st provider prompt,
      (sessionCreate st provider prompt ds).2 =
        ⟨(sessionCreate st provider prompt ds).1.final_code,
         st.history ++ [HistEntry.createE prompt (sessionCreate st provider prompt ds).1]⟩)
    ∧ (∀ st provider instruction r,
        (sessionEdit st provider instruction ds).result = .ok r →
        (sessionEdit st provider instruction ds).state' =
          ⟨r.final_code, st.history ++ [HistEntry.editE instruction r]⟩)
    ∧ (∀ ops : List SessionOp, ∀ st, sessionInv st →
        sessionInv (List.foldl (applyOp ds) st ops)) := by
  refine ⟨fun st provider prompt => rfl, ?_, ?_⟩
  · intro st provider instruction r h
    cases hcc : st.current_code with
    | none => simp [sessionEdit, hcc] at h
    | some cur =>
      by_cases hc : cur = ""
      · simp [sessionEdit, hcc, hc] at h
      · simp only [sessionEdit, hcc, if_neg hc] at h ⊢
        simp only [Except.ok.injEq] at h
        rw [← h]
  · intro ops
    induction ops with
    | nil => exact fun st h => h
    | cons op rest ih =>
      intro st h
      refine ih _ ?_
      cases op with
      | createOp pr p =>
        show sessionInv (sessionCreate st p pr ds).2
        simp [sessionInv, sessionCreate, entryFinal]
      | editOp i p =>
        show sessionInv (sessionEdit st p i ds).state'
        unfold sessionEdit
        cases hcc : st.current_code with
        | none => exact h
        | some cur =>
          by_cases hc : cur = ""
          · simpa [hc] using h
          · simp [if_neg hc, sessionInv, entryFinal]

theorem session_current_tracks_history_witness :
    sessionInv (List.foldl (applyOp dsA) initSession
      [SessionOp.createOp "p" (fun _ => "x"), SessionOp.editOp "i" (fun _ => "y")]) :=
  (session_current_tracks_history dsA).2.2
    [SessionOp.createOp "p" (fun _ => "x"), SessionOp.editOp "i" (fun _ => "y")]
    initSession (by simp [sessionInv, initSession])

/-- C1. Retry Engine bounded-retry postcondition: the attempt trail consists
of the attempts `1 .. stopIdx` in order (stopping at the first valid attempt
or after exactly `MAX_RETRIES = 3`); when every attempt is invalid the run
records 3 attempts and returns `valid = false` with the third attempt's text
and errors; when attempt 1 is invalid and attempt 2 valid the run records 2
attempts and returns `valid = true` with the second attempt's text. -/
theorem retry_engine_bounded (provider : Nat → String) (up : String) (ds : DesignSystem) :
    ((generate_component provider up ds).attempts =
      (List.range' 1 (stopIdx provider ds)).map (fun k =>
        ⟨k, pyStrip (provider k), (validate_component (pyStrip (provider k)) ds).1,
         (validate_component (pyStrip (provider k)) ds).2⟩))
    ∧ ((validate_component (pyStrip (provider 1)) ds).1 = false →
       (validate_component (pyStrip (provider 2)) ds).1 = false →
       (validate_component (pyStrip (provider 3)) ds).1 = false →
        (generate_component provider up ds).attempts.length = 3 ∧
        (generate_component provider up ds).valid = false ∧
        (generate_component provider up ds).final_code = some (pyStrip (provider 3)) ∧
        (generate_component provider up ds).errors =
          (validate_component (pyStrip (provider 3)) ds).2)
    ∧ ((validate_component (pyStrip (provider 1)) ds).1 = false →
       (validate_component (pyStrip (provider 2)) ds).1 = true →
        (generate_component provider up ds).attempts.length = 2 ∧
        (generate_component provider up ds).valid = true ∧
        (generate_component provider up ds).final_code = some (pyStrip (provider 2))) := by
  cases h1 : (validate_component (pyStrip (provider 1)) ds).1 <;>
    cases h2 : (validate_component (pyStrip (provider 2)) ds).1 <;>
      cases h3 : (validate_component (pyStrip (provider 3)) ds).1 <;>
        simp [generate_component, genLoop, MAX_RETRIES, stopIdx, h1, h2, h3, List.range']

theorem retry_engine_bounded_witness :
    ((generate_component (fun _ => "x") "t" dsA).attempts.length = 3 ∧
     (generate_component (fun _ => "x") "t" dsA).valid = false ∧
     (generate_component (fun _ => "x") "t" dsA).final_code = some "x" ∧
     (generate_component (fun _ => "x") "t" dsA).errors =
       (validate_component "x" dsA).2)
    ∧ ((generate_component
          (fun k => if k = 2 then "import x\n@Component template export class Y" else "n")
          "t" dsA).attempts.length = 2 ∧
       (generate_component
          (fun k => if k = 2 then "import x\n@Component template export class Y" else "n")
          "t" dsA).valid = true ∧
       (generate_component
          (fun k => if k = 2 then "import x\n@Component template export class Y" else "n")
          "t" dsA).final_code =
         some "import x\n@Component template export class Y") :=
  ⟨(retry_engine_bounded (fun _ => "x") "t" dsA).2.1 (by decide) (by decide) (by decide),
   (retry_engine_bounded
      (fun k => if k = 2 then "import x\n@Component template export class Y" else "n")
      "t" dsA).2.2 (by decide) (by decide)⟩

lemma mk_data (s : String) : String.mk s.data = s := rfl

lemma sanitize_length_le (text : String) : (sanitize_user_input text).length ≤ 1000 := by
  unfold sanitize_user_input takeStr
  simp only [String.length, List.length_take]
  omega

lemma subPairGo_no_match (a b : List Char) (fuel : Nat) (s : List Char)
    (h : pairMatchExists a b s = false) : subPairGo a b fuel s = s := by
  cases fuel with
  | zero => rfl
  | succ n =>
    unfold subPairGo
    unfold pairMatchExists at h
    cases hf : findPat a (s.map lowChar) with
    | none => simp [hf]
    | some i =>
      rw [hf] at h
      dsimp only at h
      cases hg : findPat b ((s.map lowChar).drop (i + a.length)) with
      | some j => rw [hg] at h; simp at h
      | none => simp [hf, hg]

lemma subPair_no_match (a b : List Char) (s : List Char)
    (h : pairMatchExists a b s = false) : subPair a b s = s :=
  subPairGo_no_match a b s.length s h

lemma subSuffix_no_match (p : List Char → Bool) (s : List Char)
    (h : findPred p (s.map lowChar) = none) : subSuffix p s = s := by
  unfold subSuffix; rw [h]

lemma takeStr_of_le (s : String) (h : s.length ≤ 1000) : takeStr 1000 s = s := by
  obtain ⟨d⟩ := s
  show String.mk (d.take 1000) = String.mk d
  rw [List.take_of_length_le h]

/-- C5 amended. Sanitizer length bound: every sanitized output has at most
1000 characters (the marker-freedom half of the original claim fails, see
the counterexample). -/
theorem sanitize_length_bound (text : String) :
    (sanitize_user_input text).length ≤ 1000 :=
  sanitize_length_le text

/-- C5 counterexample: the sanitized output of
`"a<<[INST]q[/INST]<b>>>"` is `"a<<<b>>>"`, which still contains an
instance of the `<<<.*?>>>` injection marker — removing the `[INST]` pair
splices a fresh delimiter pair together after that pattern's pass already
ran. -/
theorem sanitize_marker_free_cex :
    sanitize_user_input "a<<[INST]q[/INST]<b>>>" = "a<<<b>>>" ∧
    pairMatchExists "<<<".data ">>>".data
      (sanitize_user_input "a<<[INST]q[/INST]<b>>>").data = true := by
  exact ⟨by decide, by decide⟩

/-- C4 counterexample: sanitize is not idempotent — the output
`"a<<<b>>>"` of the first pass still contains an injection marker, so a
second pass shrinks it further. -/
theorem sanitize_idempotence_cex :
    sanitize_user_input (sanitize_user_input "a<<[INST]q[/INST]<b>>>") ≠
      sanitize_user_input "a<<[INST]q[/INST]<b>>>" := by
  decide

/-- C4 amended. Conditional idempotence: re-sanitizing is the identity on
any output of sanitize that contains no residual injection-pattern instance
and is whitespace-stripped (truncation can expose trailing whitespace); the
unconditional claim fails, see the counterexample. -/
theorem sanitize_conditional_idempotent (x : String)
    (h1 : pairMatchExists "<<<".data ">>>".data (sanitize_user_input x).data = false)
    (h2 : pairMatchExists "[inst]".data "[/inst]".data (sanitize_user_input x).data = false)
    (h3 : pairMatchExists "<s>".data "</s>".data (sanitize_user_input x).data = false)
    (h4 : findPred hashOverrideAt ((sanitize_user_input x).data.map lowChar) = none)
    (h5 : findPred ignoreInstrAt ((sanitize_user_input x).data.map lowChar) = none)
    (h6 : findPred youAreNowAt ((sanitize_user_input x).data.map lowChar) = none)
    (h7 : findPred newInstrAt ((sanitize_user_input x).data.map lowChar) = none)
    (h8 : findPred systemColonAt ((sanitize_user_input x).data.map lowChar) = none)
    (h9 : pyStrip (sanitize_user_input x) = sanitize_user_input x) :
    sanitize_user_input (sanitize_user_input x) = sanitize_user_input x := by
  have hlen : (sanitize_user_input x).length ≤ 1000 := sanitize_length_le x
  generalize hy : sanitize_user_input x = y at h1 h2 h3 h4 h5 h6 h7 h8 h9 hlen ⊢
  show takeStr 1000 (pyStrip (String.mk (subSuffix systemColonAt (subSuffix newInstrAt
    (subSuffix youAreNowAt (subSuffix ignoreInstrAt (subSuffix hashOverrideAt
      (subPair "<s>".data "</s>".data (subPair "[inst]".data "[/inst]".data
        (subPair "<<<".data ">>>".data y.data)))))))))) = y
  rw [subPair_no_match _ _ _ h1, subPair_no_match _ _ _ h2, subPair_no_match _ _ _ h3,
    subSuffix_no_match _ _ h4, subSuffix_no_match _ _ h5, subSuffix_no_match _ _ h6,
    subSuffix_no_match _ _ h7, subSuffix_no_match _ _ h8, mk_data, h9,
    takeStr_of_le y hlen]

theorem sanitize_conditional_idempotent_witness :
    sanitize_user_input (sanitize_user_input "hello") = sanitize_user_input "hello" :=
  sanitize_conditional_idempotent "hello" (by decide) (by decide) (by decide) (by decide)
    (by decide) (by decide) (by decide) (by decide) (by decide)

/-- The sample store with the `tailwind_classes` mapping removed (tokens
unchanged). -/
def dsNoTw : DesignSystem :=
  ⟨[("primary", "#6366f1"), ("c1", "ABC123")],
   [("glass", "rgba(255, 255, 255, 0.08)")],
   []⟩

/-- C6 counterexample: two stores agreeing on the tokens object but
differing in `tailwind_classes` validate the artifact `"rgb(9, 9, 9)"`
differently, because `_check_design_tokens` tests rgb literals against the
serialization of the whole design system, `tailwind_classes` included. -/
theorem validation_tailwind_dependence_cex :
    dsA.colors = dsNoTw.colors ∧ dsA.effects = dsNoTw.effects ∧
    validate_component "rgb(9, 9, 9)" dsA ≠ validate_component "rgb(9, 9, 9)" dsNoTw := by
  exact ⟨by decide, by decide, by decide⟩

/-- C6 amended. For artifacts containing no rgb/rgba literal, validation is
independent of the `tailwind_classes` mapping: any two stores agreeing on
the tokens object validate such an artifact identically (the unrestricted
claim fails on rgb literals, see the counterexample). -/
theorem validation_tailwind_independence (code : String) (ds1 ds2 : DesignSystem)
    (hc : ds1.colors = ds2.colors) (he : ds1.effects = ds2.effects)
    (hr : rgbScan code = []) :
    validate_component code ds1 = validate_component code ds2 := by
  have ha : allowedColors ds1 = allowedColors ds2 := by
    unfold allowedColors; rw [hc]
  have hf : hexFlagF ds1 = hexFlagF ds2 := by
    funext m; unfold hexFlagF; rw [ha]
  unfold validate_component designTokenErrors hexTokenErrList rgbTokenErrList
  rw [hr]
  simp [hf]

theorem validation_tailwind_independence_witness :
    rgbScan "abc" = [] ∧ validate_component "abc" dsA = validate_component "abc" dsNoTw :=
  ⟨by decide,
   validation_tailwind_independence "abc" dsA dsNoTw (by decide) (by decide) (by decide)⟩

set_option maxRecDepth 8192 in
/-- C7 counterexample: in an edit run, attempt 2's prompt is not built from
the artifact the session held when `edit` was invoked (`"ORIG"`): the loop
reassigns its `current_code` local to each attempt's completion text, so
attempt 2's prompt embeds attempt 1's output instead. -/
theorem edit_prompt_from_session_artifact_cex :
    ((editResultAttempts (sessionEdit ⟨some "ORIG", []⟩ (fun _ => "GEN") "i" dsA)).getD 1
        dummyAttempt).prompt ≠
      build_edit_prompt "ORIG" "i" dsA ++
        editFixSuffix
          (((editResultAttempts (sessionEdit ⟨some "ORIG", []⟩ (fun _ => "GEN") "i" dsA)).getD 0
              dummyAttempt).errors) := by
  decide

set_option maxHeartbeats 1600000 in
/-- C7 amended. Edit-loop prompt construction: attempt 1's prompt is built
from the session's current artifact and the sanitized instruction; each
attempt `k ≥ 2`'s prompt is built from attempt `k-1`'s generated code and
the sanitized instruction with attempt `k-1`'s validator errors appended
(not from the session's artifact, and not with errors accumulated across
attempts — see the counterexample). -/
theorem edit_prompt_construction (st : SessionSt) (cur : String) (provider : Nat → String)
    (instruction : String) (ds : DesignSystem)
    (hcc : st.current_code = some cur) (hne : cur ≠ "") :
    1 ≤ (editResultAttempts (sessionEdit st provider instruction ds)).length ∧
    ((editResultAttempts (sessionEdit st provider instruction ds)).getD 0 dummyAttempt).prompt
      = build_edit_prompt cur instruction ds ∧
    (∀ i, i + 1 < (editResultAttempts (sessionEdit st provider instruction ds)).length →
      ((editResultAttempts (sessionEdit st provider instruction ds)).getD (i + 1)
          dummyAttempt).prompt
        = build_edit_prompt
            (((editResultAttempts (sessionEdit st provider instruction ds)).getD i
                dummyAttempt).code) instruction ds ++
          editFixSuffix
            (((editResultAttempts (sessionEdit st provider instruction ds)).getD i
                dummyAttempt).errors)) := by
  have hse : editResultAttempts (sessionEdit st provider instruction ds) =
      (editLoop provider ds instruction cur [] 1 MAX_RETRIES).1 := by
    unfold sessionEdit editResultAttempts
    rw [hcc]
    simp [hne]
  rw [hse]
  unfold MAX_RETRIES
  cases hv1 : (validate_component (pyStrip (provider 1)) ds).1 with
  | true =>
    have E : (editLoop provider ds instruction cur [] 1 3).1 =
        [⟨build_edit_prompt cur instruction ds, 1, pyStrip (provider 1), true,
          (validate_component (pyStrip (provider 1)) ds).2⟩] := by
      simp [editLoop, hv1]
    rw [E]
    refine ⟨by simp, by simp [List.getD], fun i hi => ?_⟩
    simp at hi
  | false =>
    cases hv2 : (validate_component (pyStrip (provider 2)) ds).1 with
    | true =>
      have E : (editLoop provider ds instruction cur [] 1 3).1 =
          [⟨build_edit_prompt cur instruction ds, 1, pyStrip (provider 1), false,
            (validate_component (pyStrip (provider 1)) ds).2⟩,
           ⟨build_edit_prompt (pyStrip (provider 1)) instruction ds ++
              editFixSuffix (validate_component (pyStrip (provider 1)) ds).2,
            2, pyStrip (provider 2), true,
            (validate_component (pyStrip (provider 2)) ds).2⟩] := by
        simp [editLoop, hv1, hv2]
      rw [E]
      refine ⟨by simp, by simp [List.getD], fun i hi => ?_⟩
      have hi0 : i = 0 := by simp at hi; omega
      subst hi0
      simp [List.getD]
    | false =>
      have E : (editLoop provider ds instruction cur [] 1 3).1 =
          [⟨build_edit_prompt cur instruction ds, 1, pyStrip (provider 1), false,
            (validate_component (pyStrip (provider 1)) ds).2⟩,
           ⟨build_edit_prompt (pyStrip (provider 1)) instruction ds ++
              editFixSuffix (validate_component (pyStrip (provider 1)) ds).2,
            2, pyStrip (provider 2), false,
            (validate_component (pyStrip (provider 2)) ds).2⟩,
           ⟨build_edit_prompt (pyStrip (provider 2)) instruction ds ++
              editFixSuffix (validate_component (pyStrip (provider 2)) ds).2,
            3, pyStrip (provider 3),
            (validate_component (pyStrip (provider 3)) ds).1,
            (validate_component (pyStrip (provider 3)) ds).2⟩] := by
        cases hv3 : (validate_component (pyStrip (provider 3)) ds).1 <;>
          simp [editLoop, hv1, hv2, hv3]
      rw [E]
      refine ⟨by simp, by simp [List.getD], fun i hi => ?_⟩
      have hi01 : i = 0 ∨ i = 1 := by simp at hi; omega
      rcases hi01 with h0 | h1
      · subst h0; simp [List.getD]
      · subst h1; simp [List.getD]

lemma lowChar_eq_hash_iff (c : Char) : lowChar c = '#' ↔ c = '#' := by
  constructor
  · intro h
    unfold lowChar at h
    split at h
    all_goals first | exact h | exact absurd h (by decide)
  · intro h; subst h; rfl

lemma hexTokenErr_ne_rgb (x y : String) : hexTokenErr x ≠ rgbTokenErr y := by
  intro h
  have h14 := congrArg (fun s => s.data.get? 14) h
  simp only at h14
  have e1 : (hexTokenErr x).data.get? 14 = some 'H' := rfl
  have e2 : (rgbTokenErr y).data.get? 14 = some 'N' := rfl
  rw [e1, e2] at h14
  simp at h14

lemma hexTokenErr_inj {a b : String} (h : hexTokenErr a = hexTokenErr b) : a = b := by
  unfold hexTokenErr at h
  have hd := congrArg String.data h
  simp only [String.data_append] at hd
  exact String.ext (List.append_cancel_left (List.append_cancel_right hd))

lemma contains_iff_mem {l : List String} {a : String} : l.contains a = true ↔ a ∈ l := by
  simp [List.contains]

lemma hexScanGo_shape (fuel : Nat) (l : List Char) (m : List Char)
    (hm : m ∈ hexScanGo fuel l) :
    ∃ digs, m = '#' :: digs ∧ ∀ c ∈ digs, isHexDig c = true := by
  induction fuel generalizing l with
  | zero => simp [hexScanGo] at hm
  | succ n ih =>
    cases l with
    | nil => simp [hexScanGo] at hm
    | cons c rest =>
      unfold hexScanGo at hm
      dsimp only at hm
      split at hm
      · split at hm
        · rcases List.mem_cons.mp hm with h | h
          · subst h
            refine ⟨rest.takeWhile isHexDig, rfl, ?_⟩
            intro d hd
            exact List.mem_takeWhile_imp hd
          · exact ih _ h
        · exact ih _ hm
      · exact ih _ hm

lemma hexScan_shape {code : String} {m : List Char} (hm : m ∈ hexScan code) :
    ∃ digs, m = '#' :: digs ∧ ∀ c ∈ digs, isHexDig c = true :=
  hexScanGo_shape _ _ _ hm

lemma dropHash_hash_cons (l : List Char) : dropHash (String.mk ('#' :: l)) = String.mk l := by
  simp [dropHash, isPfx, dropStr]

lemma isPfx_hash_lowerS (v : String) :
    isPfx "#".data (lowerS v).data = isPfx "#".data v.data := by
  obtain ⟨d⟩ := v
  cases d with
  | nil => rfl
  | cons c t =>
    have hiff : (('#' : Char) = lowChar c) ↔ (('#' : Char) = c) := by
      rw [eq_comm, lowChar_eq_hash_iff c, eq_comm]
    simp [lowerS, isPfx, hiff]

lemma dropHash_no_hash (s : String) (h : isPfx "#".data s.data = false) :
    dropHash s = s := by
  simp [dropHash, h]

lemma dropStr_lowerS (v : String) : lowerS (dropStr 1 v) = dropStr 1 (lowerS v) := by
  simp [lowerS, dropStr]

lemma dropHash_lowerS_of_hash (v : String) (h : isPfx "#".data v.data = true) :
    dropHash (lowerS v) = lowerS (dropStr 1 v) := by
  rw [dropStr_lowerS]
  unfold dropHash
  rw [isPfx_hash_lowerS, h]
  rfl

lemma dropHash_lowerS_of_no_hash (v : String) (h : isPfx "#".data v.data = false) :
    dropHash (lowerS v) = lowerS v := by
  apply dropHash_no_hash
  rw [isPfx_hash_lowerS, h]

lemma mem_allowedColors_iff (ds : DesignSystem) (a : String) :
    (allowedColors ds).contains a = true ↔
      ∃ kv ∈ ds.colors, a = lowerS kv.2 ∨
        (isPfx "#".data kv.2.data = true ∧ a = lowerS (dropStr 1 kv.2)) := by
  rw [contains_iff_mem]
  unfold allowedColors
  rw [List.mem_flatMap]
  constructor
  · rintro ⟨kv, hkv, hin⟩
    rcases List.mem_cons.mp hin with h | h
    · exact ⟨kv, hkv, Or.inl h⟩
    · by_cases hc : isPfx "#".data kv.2.data = true
      · rw [if_pos hc] at h
        exact ⟨kv, hkv, Or.inr ⟨hc, List.mem_singleton.mp h⟩⟩
      · rw [if_neg hc] at h
        exact absurd h (List.not_mem_nil a)
  · rintro ⟨kv, hkv, h | ⟨hc, he⟩⟩
    · subst h
      exact ⟨kv, hkv, List.mem_cons_self _ _⟩
    · subst he
      refine ⟨kv, hkv, List.mem_cons.mpr (Or.inr ?_)⟩
      rw [if_pos hc]
      exact List.mem_singleton_self _

lemma hex_allowed_iff (ds : DesignSystem) (digs : List Char) :
    (((allowedColors ds).contains (lowerS (String.mk ('#' :: digs))) ||
      (allowedColors ds).contains (lowerS (String.mk digs))) = true) ↔
    hexValMatchesStore ds (String.mk ('#' :: digs)) := by
  have hfull : dropHash (lowerS (String.mk ('#' :: digs))) = lowerS (String.mk digs) := by
    show dropHash (String.mk ('#' :: digs.map lowChar)) = String.mk (digs.map lowChar)
    exact dropHash_hash_cons _
  rw [Bool.or_eq_true, mem_allowedColors_iff, mem_allowedColors_iff]
  unfold hexValMatchesStore
  constructor
  · rintro (⟨kv, hkv, h | ⟨hc, he⟩⟩ | ⟨kv, hkv, h | ⟨hc, he⟩⟩)
    · exact ⟨kv, hkv, Or.inl h⟩
    · exact ⟨kv, hkv, Or.inr (Or.inl (by rw [he, dropHash_lowerS_of_hash kv.2 hc]))⟩
    · exact ⟨kv, hkv, Or.inr (Or.inr (Or.inl (by rw [hfull, h])))⟩
    · refine ⟨kv, hkv, Or.inr (Or.inr (Or.inr ?_))⟩
      rw [hfull, he, dropHash_lowerS_of_hash kv.2 hc]
  · rintro ⟨kv, hkv, h | h | h | h⟩
    · exact Or.inl ⟨kv, hkv, Or.inl h⟩
    · cases hc : isPfx "#".data kv.2.data with
      | true =>
        rw [dropHash_lowerS_of_hash kv.2 hc] at h
        exact Or.inl ⟨kv, hkv, Or.inr ⟨hc, h⟩⟩
      | false =>
        rw [dropHash_lowerS_of_no_hash kv.2 hc] at h
        exact Or.inl ⟨kv, hkv, Or.inl h⟩
    · rw [hfull] at h
      exact Or.inr ⟨kv, hkv, Or.inl h⟩
    · rw [hfull] at h
      cases hc : isPfx "#".data kv.2.data with
      | true =>
        rw [dropHash_lowerS_of_hash kv.2 hc] at h
        exact Or.inr ⟨kv, hkv, Or.inr ⟨hc, h⟩⟩
      | false =>
        rw [dropHash_lowerS_of_no_hash kv.2 hc] at h
        exact Or.inr ⟨kv, hkv, Or.inl h⟩

lemma countP_ext {α : Type} (p q : α → Bool) (l : List α) (h : ∀ x ∈ l, p x = q x) :
    l.countP p = l.countP q := by
  induction l with
  | nil => rfl
  | cons a t ih =>
    rw [List.countP_cons, List.countP_cons, h a (List.mem_cons_self a t),
      ih (fun x hx => h x (List.mem_cons.mpr (Or.inr hx)))]

instance (ds : DesignSystem) (lit : String) : Decidable (hexValMatchesStore ds lit) := by
  unfold hexValMatchesStore
  infer_instance

lemma hexFlagF_eq_some_iff (ds : DesignSystem) (m : List Char) (e : String) :
    hexFlagF ds m = some e ↔
      ((allowedColors ds).contains (lowerS (String.mk m)) ||
        (allowedColors ds).contains (lowerS (String.mk (m.drop 1)))) = false ∧
      (universalColors.contains (lowerS (String.mk m)) ||
        universalColors.contains (lowerS (String.mk (m.drop 1)))) = false ∧
      e = hexTokenErr (lowerS (String.mk m)) := by
  unfold hexFlagF
  dsimp only
  constructor
  · intro hF
    split at hF
    · cases hF
    · split at hF
      · cases hF
      · next h1 h2 =>
          simp only [Bool.not_eq_true] at h1 h2
          injection hF with hF
          exact ⟨h1, h2, hF.symm⟩
  · rintro ⟨h1, h2, he⟩
    rw [h1, h2, he]
    simp

lemma rgbFlagF_some_shape (ds : DesignSystem) (m : List Char) (e : String)
    (hF : rgbFlagF ds m = some e) :
    e = rgbTokenErr (takeStr 50 (String.mk m)) := by
  unfold rgbFlagF at hF
  dsimp only at hF
  split at hF
  · cases hF
  · injection hF with hF
    exact hF.symm

lemma count_filterMap {α β : Type} [BEq β] [LawfulBEq β] (f : α → Option β) (e : β) :
    ∀ l : List α, (l.filterMap f).count e = l.countP (fun a => f a == some e)
  | [] => rfl
  | a :: t => by
    rw [List.countP_cons]
    cases hfa : f a with
    | none =>
      rw [List.filterMap_cons_none hfa, count_filterMap f e t]
      simp [hfa]
    | some b =>
      rw [List.filterMap_cons_some hfa, List.count_cons, count_filterMap f e t]
      simp [hfa]

/-- C2. Design-token hex check, soundness and completeness: a hex color
literal matching some store color value (case-insensitively, with or
without the leading `#`) never has its error message in the token errors;
a hex match whose value is absent from the colors mapping and outside the
universally-exempt set, and whose lower-cased text occurs exactly once
among the hex matches, produces exactly one error naming that literal. -/
theorem design_token_hex_check (code : String) (ds : DesignSystem) (lit : String)
    (m : List Char) :
    (hexValMatchesStore ds lit → hexTokenErr (lowerS lit) ∉ designTokenErrors code ds)
    ∧ (m ∈ hexScan code →
       ¬ hexValMatchesStore ds (String.mk m) →
       lowerS (String.mk m) ∉ universalColors →
       lowerS (String.mk (m.drop 1)) ∉ universalColors →
       (hexScan code).countP (fun m2 => lowerS (String.mk m2) == lowerS (String.mk m)) = 1 →
       (designTokenErrors code ds).count (hexTokenErr (lowerS (String.mk m))) = 1) := by
  constructor
  · intro hmatch hmem
    unfold designTokenErrors at hmem
    rcases List.mem_append.mp hmem with hin | hin
    · unfold hexTokenErrList at hin
      rw [List.mem_filterMap] at hin
      obtain ⟨m', hm', hF⟩ := hin
      rw [hexFlagF_eq_some_iff] at hF
      obtain ⟨hall, _, he⟩ := hF
      have hl : lowerS lit = lowerS (String.mk m') := hexTokenErr_inj he
      obtain ⟨digs, hm'eq, _⟩ := hexScan_shape hm'
      subst hm'eq
      have hmatch' : hexValMatchesStore ds (String.mk ('#' :: digs)) := by
        obtain ⟨kv, hkv, hd⟩ := hmatch
        rw [hl] at hd
        exact ⟨kv, hkv, hd⟩
      have hcontr := (hex_allowed_iff ds digs).mpr hmatch'
      have hall' : ((allowedColors ds).contains (lowerS (String.mk ('#' :: digs))) ||
          (allowedColors ds).contains (lowerS (String.mk digs))) = false := hall
      rw [hall'] at hcontr
      cases hcontr
    · unfold rgbTokenErrList at hin
      rw [List.mem_filterMap] at hin
      obtain ⟨m', _, hF⟩ := hin
      exact hexTokenErr_ne_rgb _ _ (rgbFlagF_some_shape ds m' _ hF)
  · intro hmem hnmatch huni1 huni2 hcount
    unfold designTokenErrors
    rw [List.count_append]
    have hrgb0 : (rgbTokenErrList code ds).count (hexTokenErr (lowerS (String.mk m))) = 0 := by
      rw [List.count_eq_zero]
      intro hin
      unfold rgbTokenErrList at hin
      rw [List.mem_filterMap] at hin
      obtain ⟨m', _, hF⟩ := hin
      exact hexTokenErr_ne_rgb _ _ (rgbFlagF_some_shape ds m' _ hF)
    obtain ⟨digs, hmeq, _⟩ := hexScan_shape hmem
    have hdrop : m.drop 1 = digs := by rw [hmeq]; rfl
    have hmAll : ((allowedColors ds).contains (lowerS (String.mk m)) ||
        (allowedColors ds).contains (lowerS (String.mk (m.drop 1)))) = false := by
      rw [Bool.eq_false_iff]
      intro htr
      apply hnmatch
      rw [hdrop, hmeq] at htr
      rw [hmeq]
      exact (hex_allowed_iff ds digs).mp htr
    have hmUni : (universalColors.contains (lowerS (String.mk m)) ||
        universalColors.contains (lowerS (String.mk (m.drop 1)))) = false := by
      rw [Bool.or_eq_false_iff]
      exact ⟨Bool.eq_false_iff.mpr (fun h => huni1 (contains_iff_mem.mp h)),
             Bool.eq_false_iff.mpr (fun h => huni2 (contains_iff_mem.mp h))⟩
    have hhex : (hexTokenErrList code ds).count (hexTokenErr (lowerS (String.mk m))) =
        (hexScan code).countP
          (fun m2 => hexFlagF ds m2 == some (hexTokenErr (lowerS (String.mk m)))) := by
      unfold hexTokenErrList
      exact count_filterMap _ _ _
    have hpt : ∀ m2 ∈ hexScan code,
        (hexFlagF ds m2 == some (hexTokenErr (lowerS (String.mk m)))) =
        (lowerS (String.mk m2) == lowerS (String.mk m)) := by
      intro m2 _
      by_cases heq : lowerS (String.mk m2) = lowerS (String.mk m)
      · have hshort : lowerS (String.mk (m2.drop 1)) = lowerS (String.mk (m.drop 1)) := by
          apply String.ext
          show (m2.drop 1).map lowChar = (m.drop 1).map lowChar
          rw [List.map_drop, List.map_drop]
          exact congrArg (List.drop 1) (congrArg String.data heq)
        have hF2 : hexFlagF ds m2 = some (hexTokenErr (lowerS (String.mk m))) := by
          apply (hexFlagF_eq_some_iff ds m2 _).mpr
          rw [heq, hshort]
          exact ⟨hmAll, hmUni, rfl⟩
        rw [hF2, heq]
        simp
      · have hrhs : (lowerS (String.mk m2) == lowerS (String.mk m)) = false :=
          beq_eq_false_iff_ne.mpr heq
        rw [hrhs]
        cases hF2 : hexFlagF ds m2 with
        | none => rfl
        | some e2 =>
          have he2 := (hexFlagF_eq_some_iff ds m2 e2).mp hF2
          rw [he2.2.2]
          simp only [beq_eq_false_iff_ne, ne_eq, Option.some.injEq]
          intro hc
          exact heq (hexTokenErr_inj hc)
    rw [hrgb0, Nat.add_zero, hhex, countP_ext _ _ _ hpt, hcount]

theorem design_token_hex_check_witness :
    (hexTokenErr (lowerS "#6366f1") ∉ designTokenErrors "bg #6366F1 x" dsA) ∧
    (designTokenErrors "x #ff0000 y" dsA).count
      (hexTokenErr (lowerS (String.mk "#ff0000".data))) = 1 :=
  ⟨(design_token_hex_check "bg #6366F1 x" dsA "#6366f1" []).1 (by decide),
   (design_token_hex_check "x #ff0000 y" dsA "" "#ff0000".data).2 (by decide) (by decide)
     (by decide) (by decide) (by decide)⟩

theorem edit_prompt_construction_witness :
    1 ≤ (editResultAttempts (sessionEdit ⟨some "O", []⟩ (fun _ => "G") "e" dsA)).length ∧
    ((editResultAttempts (sessionEdit ⟨some "O", []⟩ (fun _ => "G") "e" dsA)).getD 0
        dummyAttempt).prompt = build_edit_prompt "O" "e" dsA ∧
    (∀ i, i + 1 < (editResultAttempts (sessionEdit ⟨some "O", []⟩ (fun _ => "G") "e" dsA)).length →
      ((editResultAttempts (sessionEdit ⟨some "O", []⟩ (fun _ => "G") "e" dsA)).getD (i + 1)
          dummyAttempt).prompt
        = build_edit_prompt
            (((editResultAttempts (sessionEdit ⟨some "O", []⟩ (fun _ => "G") "e" dsA)).getD i
                dummyAttempt).code) "e" dsA ++
          editFixSuffix
            (((editResultAttempts (sessionEdit ⟨some "O", []⟩ (fun _ => "G") "e" dsA)).getD i
                dummyAttempt).errors)) :=
  edit_prompt_construction ⟨some "O", []⟩ "O" (fun _ => "G") "e" dsA rfl (by decide)
